import Mathlib

/-!
Verification development for the llm-caption-generator repository.

The embedding covers the pieces of the code the claims are about:
  * the upload diff check and initial caption-generation loop of
    `src/Main/app.py` (module top level, lines 203-292);
  * the caption post-processing of `generate_openai_captions`
    (`src/Main/app.py`, lines 108-191);
  * the per-caption translation caching branch of the render loop
    (`src/Main/app.py`, lines 250-268);
  * `translate_with_openai` (`src/Main/utils/translator.py`);
  * `add_caption_to_db` (`src/Main/utils/vectordb.py`);
  * `translate_caption` (`src/llm-comfyui-captioning/translator.py`);
  * the per-file upload loop of `src/llm-comfyui-captioning/app.py`
    (lines 58-87) with `save_uploaded_image` / `delete_temp_image`
    (`src/llm-comfyui-captioning/utils.py`).

External calls (OpenAI chat completions, the BLIP model, googletrans,
chromadb, the filesystem) are modelled as explicit parameters: a call
that can raise is an `Except`/outcome parameter, the filesystem is a
`String → Bool` existence predicate, and the embedding model of the
vector store is a type parameter.
-/

/-! ### Python string ordering

Python compares strings lexicographically by Unicode code point, and
`sorted` sorts ascending in that order.  `String.ltb` in core Lean does
not reduce in the kernel, so the comparison is defined here directly on
the code-point lists. -/

/-- Lexicographic less-or-equal on code-point lists, exactly the order
Python uses to compare strings. -/
def lexLeB : List Char → List Char → Bool
  | [], _ => true
  | _ :: _, [] => false
  | a :: as, b :: bs =>
    if a.toNat < b.toNat then true
    else if b.toNat < a.toNat then false
    else lexLeB as bs

/-- Python string comparison `a <= b`, as a proposition. -/
def pyLe (a b : String) : Prop := lexLeB a.data b.data = true

instance : DecidableRel pyLe := fun a b => by
  unfold pyLe; infer_instance

/-- Python `sorted` on a list of strings (ascending code-point order). -/
def pySorted (l : List String) : List String := l.insertionSort pyLe

theorem char_eq_of_toNat_eq {a b : Char} (h : a.toNat = b.toNat) : a = b := by
  apply Char.ext
  unfold Char.toNat at h
  exact UInt32.ext (by exact_mod_cast h)

theorem lexLeB_total (a b : List Char) : lexLeB a b = true ∨ lexLeB b a = true := by
  induction a generalizing b with
  | nil => exact Or.inl rfl
  | cons x xs ih =>
    cases b with
    | nil => exact Or.inr rfl
    | cons y ys =>
      by_cases hxy : x.toNat < y.toNat
      · left; simp [lexLeB, hxy]
      · by_cases hyx : y.toNat < x.toNat
        · right; simp [lexLeB, hyx]
        · rcases ih ys with h | h
          · left; simp [lexLeB, hxy, hyx, h]
          · right; simp [lexLeB, hxy, hyx, h]

theorem lexLeB_antisymm {a b : List Char} (hab : lexLeB a b = true)
    (hba : lexLeB b a = true) : a = b := by
  induction a generalizing b with
  | nil =>
    cases b with
    | nil => rfl
    | cons y ys => simp [lexLeB] at hba
  | cons x xs ih =>
    cases b with
    | nil => simp [lexLeB] at hab
    | cons y ys =>
      by_cases hxy : x.toNat < y.toNat
      · have h1 : ¬ y.toNat < x.toNat := Nat.lt_asymm hxy
        simp [lexLeB, h1] at hba
        omega
      · by_cases hyx : y.toNat < x.toNat
        · simp [lexLeB, hxy, hyx] at hab
        · have hx : x = y := char_eq_of_toNat_eq (Nat.le_antisymm
            (Nat.le_of_not_lt hyx) (Nat.le_of_not_lt hxy))
          subst hx
          simp only [lexLeB, if_neg hxy, if_neg hyx] at hab hba
          rw [ih hab hba]

theorem lexLeB_trans {a b c : List Char} (hab : lexLeB a b = true)
    (hbc : lexLeB b c = true) : lexLeB a c = true := by
  induction a generalizing b c with
  | nil => rfl
  | cons x xs ih =>
    cases b with
    | nil => simp [lexLeB] at hab
    | cons y ys =>
      cases c with
      | nil => simp [lexLeB] at hbc
      | cons z zs =>
        rcases Nat.lt_trichotomy x.toNat y.toNat with hxy | hxy | hxy
        · rcases Nat.lt_trichotomy y.toNat z.toNat with hyz | hyz | hyz
          · have : x.toNat < z.toNat := Nat.lt_trans hxy hyz
            simp [lexLeB, this]
          · have : x.toNat < z.toNat := hyz ▸ hxy
            simp [lexLeB, this]
          · simp [lexLeB, Nat.not_lt_of_lt hyz, Nat.ne_of_gt hyz] at hbc
            omega
        · rcases Nat.lt_trichotomy y.toNat z.toNat with hyz | hyz | hyz
          · have : x.toNat < z.toNat := hxy ▸ hyz
            simp [lexLeB, this]
          · have hxz : x.toNat = z.toNat := hxy.trans hyz
            have h1 : ¬ x.toNat < z.toNat := by omega
            have h2 : ¬ z.toNat < x.toNat := by omega
            have h3 : ¬ x.toNat < y.toNat := by omega
            have h4 : ¬ y.toNat < x.toNat := by omega
            have h5 : ¬ y.toNat < z.toNat := by omega
            have h6 : ¬ z.toNat < y.toNat := by omega
            simp [lexLeB, h3, h4] at hab
            simp [lexLeB, h5, h6] at hbc
            simp [lexLeB, h1, h2]
            exact ih hab hbc
          · simp [lexLeB, Nat.not_lt_of_lt hyz, Nat.ne_of_gt hyz] at hbc
            omega
        · simp [lexLeB, Nat.not_lt_of_lt hxy, Nat.ne_of_gt hxy] at hab
          omega

instance : IsTotal String pyLe :=
  ⟨fun a b => lexLeB_total a.data b.data⟩

instance : IsTrans String pyLe :=
  ⟨fun _ _ _ hab hbc => lexLeB_trans hab hbc⟩

instance : IsAntisymm String pyLe :=
  ⟨fun _ _ hab hba => String.ext (lexLeB_antisymm hab hba)⟩

/-- Two uploads holding the same names in any order sort to the same
list: `sorted` erases ordering (but nothing else). -/
theorem pySorted_perm_eq {l₁ l₂ : List String} (h : l₁.Perm l₂) :
    pySorted l₁ = pySorted l₂ := by
  apply List.eq_of_perm_of_sorted (r := pyLe)
  · exact (List.perm_insertionSort pyLe l₁).trans
      (h.trans (List.perm_insertionSort pyLe l₂).symm)
  · exact List.sorted_insertionSort pyLe l₁
  · exact List.sorted_insertionSort pyLe l₂

/-! ### Session data model (`src/Main/app.py`, lines 195-228)

`st.session_state.uploaded_images_data` is a list of dicts
`{'file_name': str, 'image_data': PIL_Image, 'captions_data':
 [{'caption': str, 'translations': {lang_code: str}}]}`.
Bitmaps are opaque here: `image_data` is an abstract token (the decoded
`Image.open(...).convert("RGB")` result), since no claim inspects pixels. -/

/-- One entry of a `captions_data` list: a caption string plus the
per-language translation cache (a dict modelled as an association list
with unique keys, insertions appended). -/
structure CaptionRecord where
  caption : String
  translations : List (String × String)
deriving DecidableEq

/-- One entry of `st.session_state.uploaded_images_data`. -/
structure ImageRecord where
  file_name : String
  image_data : Nat
  captions_data : List CaptionRecord
deriving DecidableEq

/-- Builds the fresh session entry appended for one uploaded file at
`src/Main/app.py` lines 221-228 (captions start empty). -/
def freshRecord (u : String × Nat) : ImageRecord :=
  { file_name := u.1, image_data := u.2, captions_data := [] }

/-- The initial caption-generation loop (`src/Main/app.py` lines
232-238): for every entry whose `captions_data` is empty, call the
generator on its image and append one `CaptionRecord` per returned
caption, each with an empty `translations` dict.  Returns the updated
batch and the number of generator calls made. -/
def generatePass (genFn : Nat → List String) (batch : List ImageRecord) :
    List ImageRecord × Nat :=
  (batch.map fun r =>
    if r.captions_data.isEmpty then
      { r with captions_data :=
          (genFn r.image_data).map fun t => { caption := t, translations := [] } }
    else r,
   (batch.filter fun r => r.captions_data.isEmpty).length)

/-- The module-top-level upload handling of `src/Main/app.py` lines
207-240 and 281-289, for one rerun.  `uploads` is the uploader widget
selection as (name, decoded image) pairs; `stored` is
`st.session_state.uploaded_images_data`.  If no file is selected, the
stored data is cleared (lines 284-289).  Otherwise the sorted current
names are compared with the sorted stored names (lines 209-216); on
equality nothing happens (no discard, no generator call); on mismatch
the stored batch is discarded, fresh records are built and the initial
generation loop runs.  The second component counts generator calls. -/
def topStep (genFn : Nat → List String) (uploads : List (String × Nat))
    (stored : List ImageRecord) : List ImageRecord × Nat :=
  if uploads.isEmpty then ([], 0)
  else
    let current_file_names := pySorted (uploads.map Prod.fst)
    let stored_file_names := pySorted (stored.map ImageRecord.file_name)
    if current_file_names = stored_file_names then (stored, 0)
    else generatePass genFn (uploads.map freshRecord)

theorem topStep_of_sorted_eq (genFn : Nat → List String)
    (uploads : List (String × Nat)) (stored : List ImageRecord)
    (hne : uploads ≠ [])
    (h : pySorted (uploads.map Prod.fst)
       = pySorted (stored.map ImageRecord.file_name)) :
    topStep genFn uploads stored = (stored, 0) := by
  unfold topStep
  rw [if_neg (by simpa using hne), if_pos h]

theorem topStep_of_sorted_ne (genFn : Nat → List String)
    (uploads : List (String × Nat)) (stored : List ImageRecord)
    (hne : uploads ≠ [])
    (h : pySorted (uploads.map Prod.fst)
       ≠ pySorted (stored.map ImageRecord.file_name)) :
    topStep genFn uploads stored
      = (uploads.map fun u =>
          { file_name := u.1, image_data := u.2,
            captions_data :=
              (genFn u.2).map fun t => { caption := t, translations := [] } },
         uploads.length) := by
  unfold topStep
  rw [if_neg (by simpa using hne), if_neg h]
  unfold generatePass
  congr 1
  · simp [freshRecord]
  · simp [freshRecord, List.filter_map]

example :
    topStep (fun _ => ["c1"]) [("a.png", 5)]
      [{ file_name := "a.png", image_data := 5,
         captions_data := [{ caption := "old", translations := [] }] }]
      = ([{ file_name := "a.png", image_data := 5,
            captions_data := [{ caption := "old", translations := [] }] }], 0) := by
  decide

example :
    topStep (fun _ => ["c1"]) [("a.png", 5)]
      [{ file_name := "A.png", image_data := 5,
         captions_data := [{ caption := "old", translations := [] }] }]
      = ([{ file_name := "a.png", image_data := 5,
            captions_data := [{ caption := "c1", translations := [] }] }], 1) := by
  decide

/-! ### Caption generation post-processing (`src/Main/app.py`, lines 108-191)

`generate_openai_captions` is modelled on the raw text the API call
produced: the call itself is an `Except String String` parameter
(`.error e` = the call raised, `.ok content` = the message content).
String primitives (`strip`, `split`, `find`, slicing, `startswith`) are
embedded on code-point lists because the core Lean `String` versions do
not reduce in the kernel. -/

/-- Python `str.strip()` (both-ends whitespace removal) on a code-point
list. -/
def stripChars (l : List Char) : List Char :=
  ((l.dropWhile Char.isWhitespace).reverse.dropWhile Char.isWhitespace).reverse

/-- Python `str.split('\n')`: splits at every newline, keeping empty
pieces, so the empty string yields `[""]`. -/
def splitNl : List Char → List (List Char)
  | [] => [[]]
  | c :: cs =>
    if c = '\n' then [] :: splitNl cs
    else
      match splitNl cs with
      | [] => [[c]]
      | h :: t => (c :: h) :: t

/-- The list comprehension at `src/Main/app.py` line 172:
`[line.strip() for line in raw_captions.split('\n') if line.strip()]`. -/
def nonEmptyLines (raw : List Char) : List (List Char) :=
  ((splitNl raw).map stripChars).filter fun l => !l.isEmpty

/-- Everything after the first occurrence of `c` (caller guarantees `c`
occurs): Python `cap[cap.find(c) + 1:]` when `find` succeeds. -/
def afterFirst (c : Char) : List Char → List Char
  | [] => []
  | x :: xs => if x = c then xs else afterFirst c xs

/-- Python `cap[cap.find(c) + 1:]` including the `find = -1` case, in
which the slice starts at 0 and returns the whole string. -/
def sliceAfterFind (c : Char) (l : List Char) : List Char :=
  if l.contains c then afterFirst c l else l

/-- The cleanup applied to one line of model output (`src/Main/app.py`
lines 176-181).  `none` models the `IndexError` that `cap[1]` raises on
a single-character line whose only character is a digit; that exception
is caught by the surrounding `except` (line 188).  `Char.isDigit`
models `str.isdigit()` on one character. -/
def cleanCap : List Char → Option (List Char)
  | [] => some []
  | [c] => if c.isDigit then none else some [c]
  | c0 :: c1 :: rest =>
    if c0.isDigit && (c1 = '.' || c1 = ' ') then
      some (if (c0 :: c1 :: rest).contains '.' then
              stripChars (afterFirst '.' (c0 :: c1 :: rest))
            else stripChars (sliceAfterFind ' ' (c0 :: c1 :: rest)))
    else if c0 = '-' && c1 = ' ' then some (stripChars rest)
    else some (c0 :: c1 :: rest)

/-- The cleanup loop over all lines (`src/Main/app.py` lines 173-182);
the first `IndexError` aborts the whole loop into the `except` branch. -/
def cleanLines : List (List Char) → Option (List (List Char))
  | [] => some []
  | c :: cs =>
    match cleanCap c, cleanLines cs with
    | some c2, some cs2 => some (c2 :: cs2)
    | _, _ => none

/-- Python truthiness of an optional string (`None` and `""` are
falsy). -/
def pyTruthy : Option String → Bool
  | none => false
  | some s => s ≠ ""

/-- The early-return message of `src/Main/app.py` line 123. -/
def keyMissingMsg : String :=
  "❌ OpenAI API Key missing. Please set it in Streamlit secrets or .env."

/-- The `except` branch message of `src/Main/app.py` line 191. -/
def captioningErrorMsg (e : String) : String :=
  "❌ OpenAI Captioning Error: " ++ e

/-- `generate_openai_captions` (`src/Main/app.py`, lines 108-191).
`key` is the module-level `OPENAI_API_KEY`; `apiResponse` stands for the
`client.chat.completions.create` call together with the
`response.choices[0].message.content` access (`.error` = it raised);
the exception text of the modelled `IndexError` is the CPython one. -/
def generate_openai_captions (key : Option String)
    (apiResponse : Except String String) (num_variations : Nat) : List String :=
  if pyTruthy key = false then [keyMissingMsg]
  else
    match apiResponse with
    | .error e => [captioningErrorMsg e]
    | .ok content =>
      let raw_captions := stripChars content.data
      if num_variations > 1 then
        match cleanLines (nonEmptyLines raw_captions) with
        | some cleaned_captions => cleaned_captions.map String.mk
        | none => [captioningErrorMsg "string index out of range"]
      else [String.mk raw_captions]

/-- Python `s.startswith(pre)` on code-point lists. -/
def isPrefixOfB : List Char → List Char → Bool
  | [], _ => true
  | _ :: _, [] => false
  | p :: ps, c :: cs => p = c && isPrefixOfB ps cs

/-- Python `s.startswith(pre)`. -/
def pyStartsWith (s pre : String) : Bool := isPrefixOfB pre.data s.data

example :
    generate_openai_captions (some "k") (.ok "1. Hello\n2. World") 2
      = ["Hello", "World"] := by decide

example :
    generate_openai_captions (some "k") (.ok "- dash\nplain") 2
      = ["dash", "plain"] := by decide

example : generate_openai_captions (some "k") (.ok "") 2 = [] := by decide

example :
    generate_openai_captions (some "k") (.ok "a\nb\nc") 2
      = ["a", "b", "c"] := by decide

example :
    generate_openai_captions (some "k") (.ok "1") 2
      = [captioningErrorMsg "string index out of range"] := by decide

example :
    generate_openai_captions (some "k") (.ok "  anything at all  ") 1
      = ["anything at all"] := by decide

example : pyStartsWith (captioningErrorMsg "boom") "❌" = true := by decide

/-! ### Translation caching in the render loop (`src/Main/app.py`, lines 250-268) -/

/-- Python `selected_language_code in translations` / dict access, on
the association-list model of the `translations` dict. -/
def lookupLang (code : String) : List (String × String) → Option String
  | [] => none
  | (k, v) :: rest => if k = code then some v else lookupLang code rest

/-- What one pass of the per-caption render body leaves behind: the
(possibly updated) caption record, the translated string handed to
`st.markdown` (if any), and how many times `translate_with_openai` was
invoked during the pass. -/
structure RenderOutcome where
  record : CaptionRecord
  shown : Option String
  transCalls : Nat
deriving DecidableEq

/-- The per-caption translation branch of the render loop
(`src/Main/app.py` lines 256-268): translation runs only when the
sidebar checkbox is on and the caption does not start with the reserved
error marker; a translation already cached for the selected language is
reused, otherwise `translate_with_openai` (abstracted as
`translateFn`) is called once and its result stored under the language
code. -/
def renderCaptionStep (enable_translation : Bool) (langCode : String)
    (translateFn : String → String) (entry : CaptionRecord) : RenderOutcome :=
  if enable_translation && !(pyStartsWith entry.caption "❌") then
    match lookupLang langCode entry.translations with
    | none =>
      let translated := translateFn entry.caption
      { record := { caption := entry.caption,
                    translations := entry.translations ++ [(langCode, translated)] },
        shown := some translated, transCalls := 1 }
    | some cached => { record := entry, shown := some cached, transCalls := 0 }
  else { record := entry, shown := none, transCalls := 0 }

theorem lookupLang_append_self (code : String) (ts : List (String × String))
    (v : String) (h : lookupLang code ts = none) :
    lookupLang code (ts ++ [(code, v)]) = some v := by
  induction ts with
  | nil => simp [lookupLang]
  | cons p rest ih =>
    by_cases hk : p.1 = code
    · simp [lookupLang, hk] at h
    · simp [lookupLang, hk] at h ⊢
      exact ih h

/-! ### The hosted translator (`src/Main/utils/translator.py`) -/

/-- How the translation call can end: the stripped message content, an
`OpenAIError`, or any other exception (the two `except` branches at
`src/Main/utils/translator.py` lines 85-92). -/
inductive TransOutcome where
  | ok (text : String)
  | apiError (e : String)
  | generalError (e : String)
deriving DecidableEq

/-- The early-return message of `src/Main/utils/translator.py` line 47. -/
def transKeyMissingMsg : String :=
  "❌ OpenAI API Key missing or client not initialized. Please check your .env file."

/-- The `OpenAIError` branch message (line 88). -/
def transApiErrorMsg (e : String) : String :=
  "❌ OpenAI Translation API Error: " ++ e

/-- The general `except` branch message (line 92). -/
def transGeneralErrorMsg (e : String) : String :=
  "❌ OpenAI Translation Error in translator.py: " ++ e

/-- `translate_with_openai` (`src/Main/utils/translator.py`, lines
30-92).  `clientInitialized` is whether the module-level `client` is
not `None`; `key` is the module-level `OPENAI_API_KEY`; `outcome`
stands for the `client.chat.completions.create` call. -/
def translate_with_openai (clientInitialized : Bool) (key : Option String)
    (outcome : TransOutcome) : String :=
  if !clientInitialized || pyTruthy key = false then transKeyMissingMsg
  else
    match outcome with
    | .ok text => String.mk (stripChars text.data)
    | .apiError e => transApiErrorMsg e
    | .generalError e => transGeneralErrorMsg e

/-! ### Key resolution and startup (`src/Main/app.py`, lines 15-30) -/

/-- Line 16: `st.secrets.get("OPENAI_API_KEY") or os.getenv("OPENAI_API_KEY")`.
Python `or` returns the second operand whenever the first is falsy
(`None` or the empty string). -/
def resolveApiKey (secretsVal envVal : Option String) : Option String :=
  if pyTruthy secretsVal then secretsVal else envVal

/-- Result of the module initialization at lines 22-30: either
`st.stop()` halted the script before any UI was built, or the app keeps
running with the resolved key in scope. -/
inductive StartupOutcome where
  | halted
  | running (key : Option String)
deriving DecidableEq

/-- The startup sequence (lines 15-30): resolve the key, construct the
OpenAI client, and halt the script if construction raises.
`clientInitRaises` abstracts the external `OpenAI(api_key=...)`
constructor. -/
def startup (secretsVal envVal : Option String)
    (clientInitRaises : Option String → Bool) : StartupOutcome :=
  let key := resolveApiKey secretsVal envVal
  if clientInitRaises key then .halted else .running key

/-! ### The retrieval cache (`src/Main/utils/vectordb.py`, lines 8-15) -/

/-- The argument record `add_caption_to_db` passes to
`collection.add`.  `E` is the embedding-vector type (a list of floats
in the code), `M` the metadata-dict type; both stay abstract. -/
structure AddRequest (E M : Type) where
  embeddings : List E
  documents : List String
  metadatas : List M
  ids : List String

/-- `add_caption_to_db(caption, metadata)` (`src/Main/utils/vectordb.py`
lines 8-15): embeds the caption text with the (external) sentence
embedder and hands `collection.add` singleton lists whose id slot is
the caption text itself; `metadata or {}` replaces a falsy metadata
argument by the empty dict (`emptyMeta`). -/
def add_caption_to_db {E M : Type} (embed : String → E) (emptyMeta : M)
    (caption : String) (metadata : Option M) : AddRequest E M :=
  { embeddings := [embed caption]
    documents := [caption]
    metadatas := [metadata.getD emptyMeta]
    ids := [caption] }

/-! ### The local-model variant (`src/llm-comfyui-captioning`)

The filesystem is a `String → Bool` existence predicate over paths. -/

/-- `save_uploaded_image` (`src/llm-comfyui-captioning/utils.py`, lines
3-6): `NamedTemporaryFile(delete=False)` creates a file under a fresh
name chosen by the library (the `tmpName` parameter) and returns that
name. -/
def save_uploaded_image (fs : String → Bool) (tmpName : String) :
    (String → Bool) × String :=
  (fun p => if p = tmpName then true else fs p, tmpName)

/-- `delete_temp_image` (`src/llm-comfyui-captioning/utils.py`, lines
8-11): remove the path only if it exists, so a missing file is a no-op
and nothing is ever raised. -/
def delete_temp_image (fs : String → Bool) (image_path : String) :
    String → Bool :=
  if fs image_path then (fun p => if p = image_path then false else fs p)
  else fs

/-- `translate_caption` (`src/llm-comfyui-captioning/translator.py`,
lines 5-10): the googletrans call is an `Except` parameter; any
exception is caught and turned into a `"Translation failed: ..."`
string, so the function itself never raises. -/
def translate_caption (outcome : Except String String) : String :=
  match outcome with
  | .ok text => text
  | .error e => "Translation failed: " ++ e

/-- What the per-file loop body renders for one file: a caption card
(with optional translation) on success, or the `st.error` message from
the `except` branch. -/
inductive FileRender where
  | card (caption : String) (translated : Option String)
  | shownError (msg : String)
deriving DecidableEq

/-- One iteration of the upload loop of
`src/llm-comfyui-captioning/app.py` (lines 58-87): save the upload to a
temp file, run the try-body (caption generation — `capResult.error e`
models `generate_caption` raising — then optional translation through
the total `translate_caption`), catch any exception into an error card,
and in all cases run the `finally` step deleting the temp file.  The
body never touches the filesystem model (it only reads the temp file). -/
def processUploadedFile (fs : String → Bool) (tmpName : String)
    (capResult : Except String String) (enableTrans : Bool)
    (transResult : Except String String) : (String → Bool) × FileRender :=
  let saved := save_uploaded_image fs tmpName
  let temp_path := saved.2
  let rendered :=
    match capResult with
    | .ok caption =>
      if enableTrans then
        FileRender.card caption (some (translate_caption transResult))
      else FileRender.card caption none
    | .error e => FileRender.shownError ("❌ Error: " ++ e)
  (delete_temp_image saved.1 temp_path, rendered)

/-- The constant-false filesystem (no file exists); used to instantiate
the temp-file theorems at a concrete state. -/
def emptyFs : String → Bool := fun _ => false

/-- Python `str.lower()` on a string (used only to state case
insensitivity in counterexamples). -/
def pyLower (s : String) : String := String.mk (s.data.map Char.toLower)

/-! ### Helper lemmas -/

theorem cleanLines_length {l : List (List Char)} {r : List (List Char)}
    (h : cleanLines l = some r) : r.length = l.length := by
  induction l generalizing r with
  | nil => simp [cleanLines] at h; simp [← h]
  | cons c cs ih =>
    unfold cleanLines at h
    cases hc : cleanCap c with
    | none => rw [hc] at h; exact absurd h (by simp)
    | some c2 =>
      cases hcs : cleanLines cs with
      | none => rw [hc, hcs] at h; exact absurd h (by simp)
      | some cs2 =>
        rw [hc, hcs] at h
        simp at h
        simp [← h, ih hcs]

theorem isPrefixOfB_append {m l : List Char} (l2 : List Char)
    (h : isPrefixOfB m l = true) : isPrefixOfB m (l ++ l2) = true := by
  induction m generalizing l with
  | nil => rfl
  | cons p ps ih =>
    cases l with
    | nil => simp [isPrefixOfB] at h
    | cons c cs =>
      simp [isPrefixOfB] at h ⊢
      exact ⟨h.1, ih h.2⟩

theorem pyStartsWith_append_left (pre e m : String)
    (h : pyStartsWith pre m = true) : pyStartsWith (pre ++ e) m = true := by
  unfold pyStartsWith at h ⊢
  rw [String.data_append]
  exact isPrefixOfB_append _ h

/-! ### The claims -/

/-- C1: for every stored batch and every re-submitted upload whose
sorted file-name list equals the stored batch's sorted file-name list,
the controller does not discard the stored ImageRecords and does not
call the Caption Generator again — re-rendering with an unchanged
selection performs no generation call and leaves the stored batch
untouched. -/
theorem claim_C1_resubmit_same_names_no_regeneration
    (genFn : Nat → List String) (uploads : List (String × Nat))
    (stored : List ImageRecord) (hne : uploads ≠ [])
    (h : pySorted (uploads.map Prod.fst)
       = pySorted (stored.map ImageRecord.file_name)) :
    topStep genFn uploads stored = (stored, 0) :=
  topStep_of_sorted_eq genFn uploads stored hne h

/-- Witness for C1: a two-file batch re-submitted in a different order
(equal sorted name lists) is kept as is, with zero generator calls. -/
theorem claim_C1_witness :
    topStep (fun _ => ["fresh"]) [("b.png", 1), ("a.png", 2)]
      [{ file_name := "a.png", image_data := 2,
         captions_data := [{ caption := "c-a", translations := [] }] },
       { file_name := "b.png", image_data := 1,
         captions_data := [{ caption := "c-b", translations := [] }] }]
      = ([{ file_name := "a.png", image_data := 2,
            captions_data := [{ caption := "c-a", translations := [] }] },
          { file_name := "b.png", image_data := 1,
            captions_data := [{ caption := "c-b", translations := [] }] }], 0) :=
  claim_C1_resubmit_same_names_no_regeneration _ _ _ (by decide) (by decide)

/-- C2 counterexample: a stored batch `["A.png"]` and an upload
`["a.png"]` have name-sets equal up to letter case and ordering, yet
the code replaces the batch (discarding the stored record and calling
the generator once): the comparison at `src/Main/app.py` line 216 is
case-sensitive, so the claim as stated is false. -/
theorem claim_C2_counterexample :
    pySorted (["a.png"].map pyLower)
      = pySorted (["A.png"].map pyLower) ∧
    topStep (fun _ => ["c1"]) [("a.png", 5)]
      [{ file_name := "A.png", image_data := 5,
         captions_data := [{ caption := "old", translations := [] }] }]
      ≠ ([{ file_name := "A.png", image_data := 5,
            captions_data := [{ caption := "old", translations := [] }] }], 0) := by
  decide

/-- C2 (amended): the identity comparison that decides batch
replacement is case-sensitive and order-insensitive: for every stored
batch and every upload selection whose file-name lists are equal as
multisets with exact letter case, no batch replacement occurs; any
mismatch of the exact sorted name lists forces a full clear-and-reload
(all stored records discarded, fresh records built from the upload,
one generation call per uploaded file). -/
theorem claim_C2_amended_case_sensitive_order_insensitive
    (genFn : Nat → List String) (uploads : List (String × Nat))
    (stored : List ImageRecord) (hne : uploads ≠ []) :
    ((uploads.map Prod.fst).Perm (stored.map ImageRecord.file_name) →
       topStep genFn uploads stored = (stored, 0)) ∧
    (pySorted (uploads.map Prod.fst)
       ≠ pySorted (stored.map ImageRecord.file_name) →
       topStep genFn uploads stored
         = (uploads.map fun u =>
             { file_name := u.1, image_data := u.2,
               captions_data :=
                 (genFn u.2).map fun t => { caption := t, translations := [] } },
            uploads.length)) := by
  constructor
  · intro hperm
    exact topStep_of_sorted_eq genFn uploads stored hne (pySorted_perm_eq hperm)
  · intro hdiff
    exact topStep_of_sorted_ne genFn uploads stored hne hdiff

/-- Witness for the amended C2: a permuted re-upload keeps the batch; a
case-changed upload clears and reloads it. -/
theorem claim_C2_witness :
    topStep (fun _ => ["fresh"]) [("b.png", 1), ("a.png", 2)]
      [{ file_name := "a.png", image_data := 2,
         captions_data := [{ caption := "c-a", translations := [] }] },
       { file_name := "b.png", image_data := 1,
         captions_data := [{ caption := "c-b", translations := [] }] }]
      = ([{ file_name := "a.png", image_data := 2,
            captions_data := [{ caption := "c-a", translations := [] }] },
          { file_name := "b.png", image_data := 1,
            captions_data := [{ caption := "c-b", translations := [] }] }], 0) ∧
    topStep (fun _ => ["fresh"]) [("a.png", 5)]
      [{ file_name := "A.png", image_data := 5,
         captions_data := [{ caption := "old", translations := [] }] }]
      = ([{ file_name := "a.png", image_data := 5,
            captions_data := [{ caption := "fresh", translations := [] }] }], 1) := by
  constructor
  · exact (claim_C2_amended_case_sensitive_order_insensitive _ _ _
      (by decide)).1 (by decide)
  · exact (claim_C2_amended_case_sensitive_order_insensitive _ _ _
      (by decide)).2 (by decide)

/-- C3 counterexample: with the key present and n = 2 (inside [1,10]),
an all-whitespace model output yields the empty list (violating the
claimed lower bound 1), and a three-line output yields three captions
(violating the claimed upper bound n). -/
theorem claim_C3_counterexample :
    (1 : Nat) ≤ 2 ∧ (2 : Nat) ≤ 10 ∧
    ¬ (1 ≤ (generate_openai_captions (some "k") (.ok "") 2).length) ∧
    ¬ ((generate_openai_captions (some "k") (.ok "a\nb\nc") 2).length ≤ 2) := by
  decide

/-- C3 (amended): with the key present, for n = 1 any raw model output
(parseable or not) is returned whole as the single caption, so the
result has length exactly 1; for n > 1 the result is the cleaned list
of non-empty lines of the stripped output (or a singleton error string
when the cleanup raises), so its length is bounded by the number of
non-empty lines — not by n — and it is empty exactly when the stripped
output has no non-empty line.  The result can therefore be empty or
longer than n when n > 1. -/
theorem claim_C3_amended_result_length
    (key : Option String) (content : String) (n : Nat)
    (hk : pyTruthy key = true) :
    (n = 1 →
      generate_openai_captions key (.ok content) n
        = [String.mk (stripChars content.data)]) ∧
    (1 < n →
      (generate_openai_captions key (.ok content) n).length
          ≤ max 1 (nonEmptyLines (stripChars content.data)).length ∧
      (generate_openai_captions key (.ok content) n = []
          ↔ nonEmptyLines (stripChars content.data) = [])) := by
  constructor
  · intro hn
    subst hn
    simp [generate_openai_captions, hk]
  · intro hn
    have hgt : n > 1 := hn
    cases hcl : cleanLines (nonEmptyLines (stripChars content.data)) with
    | some cleaned =>
      have hres : generate_openai_captions key (.ok content) n
          = cleaned.map String.mk := by
        simp [generate_openai_captions, hk, hgt, hcl]
      have hlen := cleanLines_length hcl
      constructor
      · rw [hres]
        simp [hlen]
      · rw [hres]
        constructor
        · intro hmap
          have : cleaned = [] := by
            cases cleaned with
            | nil => rfl
            | cons a l => simp at hmap
          rw [this] at hlen
          exact List.eq_nil_of_length_eq_zero hlen.symm
        · intro hnil
          rw [hnil] at hlen
          simp at hlen
          simp [hlen]
    | none =>
      have hres : generate_openai_captions key (.ok content) n
          = [captioningErrorMsg "string index out of range"] := by
        simp [generate_openai_captions, hk, hgt, hcl]
      have hnil : nonEmptyLines (stripChars content.data) ≠ [] := by
        intro hz
        rw [hz] at hcl
        simp [cleanLines] at hcl
      constructor
      · rw [hres]
        simp
      · rw [hres]
        simp [hnil]

/-- Witness for the amended C3: a one-line unparseable output with
n = 1, and a two-line output with n = 2. -/
theorem claim_C3_witness :
    pyTruthy (some "k") = true ∧
    generate_openai_captions (some "k") (.ok " word salad ") 1
      = [String.mk (stripChars " word salad ".data)] ∧
    (generate_openai_captions (some "k") (.ok "a\nb") 2).length
      ≤ max 1 (nonEmptyLines (stripChars "a\nb".data)).length ∧
    (generate_openai_captions (some "k") (.ok "a\nb") 2 = []
      ↔ nonEmptyLines (stripChars "a\nb".data) = []) :=
  ⟨by decide,
   (claim_C3_amended_result_length (some "k") " word salad " 1 (by decide)).1 rfl,
   ((claim_C3_amended_result_length (some "k") "a\nb" 2 (by decide)).2
     (by decide)).1,
   ((claim_C3_amended_result_length (some "k") "a\nb" 2 (by decide)).2
     (by decide)).2⟩

/-- C4: for a fixed CaptionRecord and fixed target language code, the
Translator is invoked at most once over the record's lifetime: a render
pass makes at most one translation call, and once a pass has run, any
further pass for the same (caption, language) pair makes no external
call, leaves the record unchanged, and shows the identical cached
string. -/
theorem claim_C4_translation_cached_at_most_once
    (enable_translation : Bool) (langCode : String)
    (translateFn : String → String) (entry : CaptionRecord) :
    (renderCaptionStep enable_translation langCode translateFn entry).transCalls
        ≤ 1 ∧
    (renderCaptionStep enable_translation langCode translateFn
        (renderCaptionStep enable_translation langCode translateFn
          entry).record).transCalls = 0 ∧
    (renderCaptionStep enable_translation langCode translateFn
        (renderCaptionStep enable_translation langCode translateFn
          entry).record).record
      = (renderCaptionStep enable_translation langCode translateFn
          entry).record ∧
    (renderCaptionStep enable_translation langCode translateFn
        (renderCaptionStep enable_translation langCode translateFn
          entry).record).shown
      = (renderCaptionStep enable_translation langCode translateFn
          entry).shown := by
  by_cases hg : (enable_translation && !(pyStartsWith entry.caption "❌")) = true
  · cases hlk : lookupLang langCode entry.translations with
    | some cached => simp [renderCaptionStep, hg, hlk]
    | none =>
      have h2 := lookupLang_append_self langCode entry.translations
        (translateFn entry.caption) hlk
      simp [renderCaptionStep, hg, hlk, h2]
  · simp [renderCaptionStep, hg]

/-- C5: for every caption text that begins with the reserved error
marker "❌", the render path with translation enabled never attempts a
translation: the pass makes zero Translator calls, shows no
translation, and leaves the record — in particular its `translations`
map — exactly as it was, so an error caption created with an empty map
keeps it empty. -/
theorem claim_C5_error_marker_suppresses_translation
    (enable_translation : Bool) (langCode : String)
    (translateFn : String → String) (entry : CaptionRecord)
    (herr : pyStartsWith entry.caption "❌" = true) :
    renderCaptionStep enable_translation langCode translateFn entry
      = { record := entry, shown := none, transCalls := 0 } ∧
    (renderCaptionStep enable_translation langCode translateFn
        entry).record.translations = entry.translations := by
  constructor
  · simp [renderCaptionStep, herr]
  · simp [renderCaptionStep, herr]

/-- Witness for C5: a render pass with translation enabled over a
generation-failure caption makes no call and keeps its empty map. -/
theorem claim_C5_witness :
    renderCaptionStep true "hi" (fun _ => "translated")
      { caption := "❌ OpenAI Captioning Error: boom", translations := [] }
      = { record := { caption := "❌ OpenAI Captioning Error: boom",
                      translations := [] },
          shown := none, transCalls := 0 } ∧
    (renderCaptionStep true "hi" (fun _ => "translated")
      { caption := "❌ OpenAI Captioning Error: boom",
        translations := [] }).record.translations = [] :=
  ⟨(claim_C5_error_marker_suppresses_translation true "hi" (fun _ => "translated")
      { caption := "❌ OpenAI Captioning Error: boom", translations := [] }
      (by decide)).1,
   (claim_C5_error_marker_suppresses_translation true "hi" (fun _ => "translated")
      { caption := "❌ OpenAI Captioning Error: boom", translations := [] }
      (by decide)).2⟩

/-- C6: every failure of an external caption or translation call is
converted at the boundary into an error-marker string result rather
than a raised exception: the Caption Generator returns a single-element
list holding a "❌"-prefixed string, `translate_with_openai` returns a
"❌"-prefixed string, `translate_caption` returns a
"Translation failed: "-prefixed string, and — since every per-image
generator result is a value, not an exception — each image in a
replaced batch receives exactly its own generator result, so one
image's failure never aborts the processing of the others. -/
theorem claim_C6_failures_are_marker_strings
    (key : Option String) (e : String) (n : Nat) (clientInit : Bool)
    (genFn : Nat → List String) (uploads : List (String × Nat))
    (stored : List ImageRecord)
    (hk : pyTruthy key = true) (hc : clientInit = true)
    (hne : uploads ≠ [])
    (hdiff : pySorted (uploads.map Prod.fst)
       ≠ pySorted (stored.map ImageRecord.file_name)) :
    generate_openai_captions key (.error e) n = [captioningErrorMsg e] ∧
    pyStartsWith (captioningErrorMsg e) "❌" = true ∧
    translate_with_openai clientInit key (.apiError e) = transApiErrorMsg e ∧
    translate_with_openai clientInit key (.generalError e)
      = transGeneralErrorMsg e ∧
    pyStartsWith (transApiErrorMsg e) "❌" = true ∧
    pyStartsWith (transGeneralErrorMsg e) "❌" = true ∧
    translate_caption (.error e) = "Translation failed: " ++ e ∧
    (topStep genFn uploads stored).1
      = uploads.map fun u =>
          { file_name := u.1, image_data := u.2,
            captions_data :=
              (genFn u.2).map fun t => { caption := t, translations := [] } } := by
  subst hc
  refine ⟨?_, ?_, ?_, ?_, ?_, ?_, rfl, ?_⟩
  · simp [generate_openai_captions, hk]
  · exact pyStartsWith_append_left "❌ OpenAI Captioning Error: " e "❌" (by decide)
  · simp [translate_with_openai, hk]
  · simp [translate_with_openai, hk]
  · exact pyStartsWith_append_left "❌ OpenAI Translation API Error: " e "❌"
      (by decide)
  · exact pyStartsWith_append_left "❌ OpenAI Translation Error in translator.py: "
      e "❌" (by decide)
  · rw [topStep_of_sorted_ne genFn uploads stored hne hdiff]

/-- Witness for C6: a concrete failing call under a present key, and a
one-image batch whose only generator result is the error singleton
while the other image still gets its caption. -/
theorem claim_C6_witness :
    generate_openai_captions (some "k") (.error "quota") 3
      = [captioningErrorMsg "quota"] ∧
    pyStartsWith (captioningErrorMsg "quota") "❌" = true ∧
    translate_with_openai true (some "k") (.apiError "quota")
      = transApiErrorMsg "quota" ∧
    translate_with_openai true (some "k") (.generalError "quota")
      = transGeneralErrorMsg "quota" ∧
    pyStartsWith (transApiErrorMsg "quota") "❌" = true ∧
    pyStartsWith (transGeneralErrorMsg "quota") "❌" = true ∧
    translate_caption (.error "quota") = "Translation failed: " ++ "quota" ∧
    (topStep
        (fun img => if img = 1 then [captioningErrorMsg "auth"] else ["a cat"])
        [("bad.png", 1), ("good.png", 2)] []).1
      = [{ file_name := "bad.png", image_data := 1,
            captions_data := [{ caption := captioningErrorMsg "auth",
                                translations := [] }] },
         { file_name := "good.png", image_data := 2,
            captions_data := [{ caption := "a cat", translations := [] }] }] :=
  claim_C6_failures_are_marker_strings (some "k") _ 3 true
    (fun img => if img = 1 then [captioningErrorMsg "auth"] else ["a cat"])
    [("bad.png", 1), ("good.png", 2)] [] (by decide) rfl (by decide) (by decide)

/-- C7 counterexample: both external-call sites do contain a per-call
code path that handles a missing key by returning a per-call
error-marker result — `generate_openai_captions` returns the
key-missing singleton and `translate_with_openai` the key-missing
string, and each differs from the same call with a key present — so
the claim that absence of the credential is handled exclusively at
startup is false. -/
theorem claim_C7_counterexample :
    generate_openai_captions none (.ok "hi") 1 = [keyMissingMsg] ∧
    pyStartsWith keyMissingMsg "❌" = true ∧
    generate_openai_captions (some "k") (.ok "hi") 1 ≠ [keyMissingMsg] ∧
    translate_with_openai true none (.ok "hi") = transKeyMissingMsg ∧
    pyStartsWith transKeyMissingMsg "❌" = true ∧
    translate_with_openai true (some "k") (.ok "hi") ≠ transKeyMissingMsg := by
  decide

/-- C7 (amended): the credential is resolved from the secret store
first and the environment second; a key on which client construction
fails halts the whole process before any UI is shown; and in addition
each per-call path defensively handles a missing key by returning a
per-call error-marker result (`generate_openai_captions` a singleton
key-missing list, `translate_with_openai` a key-missing string). -/
theorem claim_C7_amended_layered_key_and_per_call_guards
    (secretsVal envVal key : Option String) (f : Option String → Bool)
    (res : Except String String) (n : Nat) (clientInit : Bool)
    (outcome : TransOutcome) :
    (pyTruthy secretsVal = true → resolveApiKey secretsVal envVal = secretsVal) ∧
    (pyTruthy secretsVal = false → resolveApiKey secretsVal envVal = envVal) ∧
    (f (resolveApiKey secretsVal envVal) = true →
        startup secretsVal envVal f = .halted) ∧
    (f (resolveApiKey secretsVal envVal) = false →
        startup secretsVal envVal f = .running (resolveApiKey secretsVal envVal)) ∧
    (pyTruthy key = false →
        generate_openai_captions key res n = [keyMissingMsg]) ∧
    (pyTruthy key = false →
        translate_with_openai clientInit key outcome = transKeyMissingMsg) := by
  refine ⟨fun h => ?_, fun h => ?_, fun h => ?_, fun h => ?_, fun h => ?_,
    fun h => ?_⟩
  · simp [resolveApiKey, h]
  · simp [resolveApiKey, h]
  · simp [startup, h]
  · simp [startup, h]
  · simp [generate_openai_captions, h]
  · simp [translate_with_openai, h]

/-- Witness for the amended C7: a truthy secret wins over the
environment, a failing client construction halts, and both per-call
paths return their key-missing markers when the key is absent. -/
theorem claim_C7_witness :
    resolveApiKey (some "sk-1") (some "sk-2") = some "sk-1" ∧
    resolveApiKey none (some "sk-2") = some "sk-2" ∧
    startup none none (fun k => !pyTruthy k) = .halted ∧
    startup (some "sk-1") none (fun k => !pyTruthy k)
      = .running (resolveApiKey (some "sk-1") none) ∧
    generate_openai_captions none (.ok "hi") 2 = [keyMissingMsg] ∧
    translate_with_openai false none (.apiError "x") = transKeyMissingMsg :=
  ⟨(claim_C7_amended_layered_key_and_per_call_guards (some "sk-1") (some "sk-2")
      none (fun k => !pyTruthy k) (.ok "hi") 2 true (.ok "y")).1 (by decide),
   (claim_C7_amended_layered_key_and_per_call_guards none (some "sk-2")
      none (fun k => !pyTruthy k) (.ok "hi") 2 true (.ok "y")).2.1 (by decide),
   (claim_C7_amended_layered_key_and_per_call_guards none none
      none (fun k => !pyTruthy k) (.ok "hi") 2 true (.ok "y")).2.2.1 (by decide),
   (claim_C7_amended_layered_key_and_per_call_guards (some "sk-1") none
      none (fun k => !pyTruthy k) (.ok "hi") 2 true (.ok "y")).2.2.2.1 (by decide),
   (claim_C7_amended_layered_key_and_per_call_guards (some "sk-1") none
      none (fun k => !pyTruthy k) (.ok "hi") 2 true (.ok "y")).2.2.2.2.1 rfl,
   (claim_C7_amended_layered_key_and_per_call_guards (some "sk-1") none
      none (fun k => !pyTruthy k) (.ok "hi") 2 false (.apiError "x")).2.2.2.2.2
      rfl⟩

/-- C8: for every caption text and metadata, Retrieval Cache insertion
sends the collection a request whose id slot is the caption text
itself, alongside the caption's embedding, the caption as document and
the (defaulted) metadata — so two inserts with identical caption text,
even with different metadata from different images, carry the same
key and collide in the id-keyed store. -/
theorem claim_C8_insert_keyed_by_caption_text {E M : Type}
    (embed : String → E) (emptyMeta : M) (caption : String)
    (metadata m2 : Option M) :
    (add_caption_to_db embed emptyMeta caption metadata).ids = [caption] ∧
    (add_caption_to_db embed emptyMeta caption metadata).documents = [caption] ∧
    (add_caption_to_db embed emptyMeta caption metadata).embeddings
      = [embed caption] ∧
    (add_caption_to_db embed emptyMeta caption metadata).metadatas
      = [metadata.getD emptyMeta] ∧
    (add_caption_to_db embed emptyMeta caption metadata).ids
      = (add_caption_to_db embed emptyMeta caption m2).ids :=
  ⟨rfl, rfl, rfl, rfl, rfl⟩

/-- C9: in the local-model variant, the temp file created for an
uploaded file is deleted within the same per-file processing scope on
both the success path and the error path (the `finally` step runs even
when caption generation raises, and `translate_caption` never raises),
and no other path of the filesystem is touched. -/
theorem claim_C9_temp_file_deleted_on_all_paths (fs : String → Bool)
    (tmpName : String) (capResult : Except String String)
    (enableTrans : Bool) (transResult : Except String String) :
    (processUploadedFile fs tmpName capResult enableTrans transResult).1 tmpName
      = false ∧
    ∀ p, p ≠ tmpName →
      (processUploadedFile fs tmpName capResult enableTrans transResult).1 p
        = fs p := by
  constructor
  · simp [processUploadedFile, save_uploaded_image, delete_temp_image]
  · intro p hp
    simp [processUploadedFile, save_uploaded_image, delete_temp_image, hp]

/-- Witness for C9: a file whose caption generation raises still has
its temp file deleted, and an unrelated path is untouched. -/
theorem claim_C9_witness :
    (processUploadedFile emptyFs "/tmp/u.png" (.error "model crashed") true
        (.ok "t")).1 "/tmp/u.png" = false ∧
    (processUploadedFile emptyFs "/tmp/u.png" (.error "model crashed") true
        (.ok "t")).1 "/tmp/other.png" = emptyFs "/tmp/other.png" :=
  ⟨(claim_C9_temp_file_deleted_on_all_paths emptyFs "/tmp/u.png"
      (.error "model crashed") true (.ok "t")).1,
   (claim_C9_temp_file_deleted_on_all_paths emptyFs "/tmp/u.png"
      (.error "model crashed") true (.ok "t")).2 "/tmp/other.png" (by decide)⟩

/-- C10: `delete_temp_image` is total and idempotent: deleting a path
twice leaves the same state as deleting it once, and calling it when
the file does not exist is a no-op (the function is total in the
embedding because the `os.path.exists` guard keeps `os.remove` from
being reached on a missing file, so nothing is raised). -/
theorem claim_C10_delete_total_idempotent (fs : String → Bool)
    (image_path : String) :
    delete_temp_image (delete_temp_image fs image_path) image_path
      = delete_temp_image fs image_path ∧
    (fs image_path = false → delete_temp_image fs image_path = fs) := by
  constructor
  · by_cases hfs : fs image_path = true
    · have h1 : delete_temp_image fs image_path
          = fun p => if p = image_path then false else fs p := by
        simp [delete_temp_image, hfs]
      rw [h1]
      simp [delete_temp_image]
    · have h1 : delete_temp_image fs image_path = fs := by
        simp [delete_temp_image, hfs]
      rw [h1]
      exact h1
  · intro h
    simp [delete_temp_image, h]

/-- Witness for C10: deleting a missing path on the empty filesystem is
a no-op, and a second deletion changes nothing. -/
theorem claim_C10_witness :
    delete_temp_image (delete_temp_image emptyFs "/tmp/t.png") "/tmp/t.png"
      = delete_temp_image emptyFs "/tmp/t.png" ∧
    delete_temp_image emptyFs "/tmp/t.png" = emptyFs :=
  ⟨(claim_C10_delete_total_idempotent emptyFs "/tmp/t.png").1,
   (claim_C10_delete_total_idempotent emptyFs "/tmp/t.png").2 rfl⟩
